import Mathlib

/-!
Shallow embedding of the TenyoJubaku position-protection (TPSL) engine.

Sources embedded:
  - internal/tpsl/manager.go : analyzeCoverage, matchesPosition,
    calculateTPSLPrices, isLongPosition, adjustTPSLPricesWithCurrentPrice,
    placeTPSLOrderWithValidation, placeTPSLOrderOriginal, AnalyzeAndPlaceTPSL
  - internal/storage/storage.go : GetLatestPositions
  - pkg/models : Position, PositionSide, MarginMode

Modelling conventions:
  - Go float64 is modelled as ℚ (exact rational arithmetic).
  - Go string enums (PositionSide, MarginMode) are modelled as String,
    as in the source, with the source constants as abbreviations.
  - The AlgoOrder field Sz is a string in the source and is parsed with
    strconv.ParseFloat inside analyzeCoverage; we model Sz as the outcome
    of that parse (Option ℚ), none meaning the parse failed.
  - Trigger price fields of pending AlgoOrders are kept as String, since
    the source only compares them against "" and "0".
  - Network calls of the OKX client are modelled by an explicit Gateway
    record of response functions; a placement run returns the list of
    algo-order requests it issued, in order, together with its result.
  - Timestamps in the storage layer are modelled as integers (seconds).
-/

namespace TenyoJubaku

/-- pkg/models/enums.go: PositionSide is a string type. -/
abbrev PositionSide := String

def PositionSideLong : PositionSide := "long"
def PositionSideShort : PositionSide := "short"
def PositionSideNet : PositionSide := "net"

/-- pkg/models/enums.go: MarginMode is a string type. -/
abbrev MarginMode := String

def MarginModeCross : MarginMode := "cross"
def MarginModeIsolated : MarginMode := "isolated"

/-- pkg/models/position.go: Position data model. Timestamp is modelled as
integer seconds; float64 fields as ℚ. -/
structure Position where
  ID : Int
  Timestamp : Int
  Instrument : String
  PositionSide : PositionSide
  PositionSize : ℚ
  AveragePrice : ℚ
  UnrealizedPnL : ℚ
  Margin : ℚ
  Leverage : ℚ
  MarginMode : MarginMode
  deriving Repr, DecidableEq

/-- internal/okx: pending algo order as returned by GetPendingAlgoOrders.
Sz is modelled as the result of strconv.ParseFloat on the size string
(none = parse error); the trigger prices stay strings as in the source. -/
structure AlgoOrder where
  AlgoId : String
  InstId : String
  PosSide : String
  Sz : Option ℚ
  OrdType : String
  State : String
  TpTriggerPx : String
  SlTriggerPx : String
  deriving Repr, DecidableEq

/-- internal/config: the TPSL configuration fields read by the manager. -/
structure TPSLConfig where
  VolatilityPct : ℚ
  ProfitLossRatio : ℚ
  deriving Repr, DecidableEq

/-- internal/tpsl/manager.go: TPSLPrices. -/
structure TPSLPrices where
  TpPrice : ℚ
  SlPrice : ℚ
  deriving Repr, DecidableEq

/-- internal/tpsl/manager.go: CoverageSummary. -/
structure CoverageSummary where
  TotalChecked : Nat
  FullyCovered : Nat
  PartiallyCovered : Nat
  NotCovered : Nat
  OrdersPlaced : Nat
  PlacementFailures : Nat
  deriving Repr, DecidableEq

/-- The zero summary `&CoverageSummary{}`. -/
def CoverageSummary.empty : CoverageSummary := ⟨0, 0, 0, 0, 0, 0⟩

/-- manager.go matchesPosition: same instrument, same position side,
order type conditional, state live. -/
def matchesPosition (order : AlgoOrder) (position : Position) : Bool :=
  if order.InstId ≠ position.Instrument then false
  else if order.PosSide ≠ position.PositionSide then false
  else if order.OrdType ≠ "conditional" then false
  else if order.State ≠ "live" then false
  else true

/-- manager.go analyzeCoverage: `hasTp := order.TpTriggerPx != "" && order.TpTriggerPx != "0"`. -/
def hasTpTrigger (order : AlgoOrder) : Bool :=
  order.TpTriggerPx ≠ "" && order.TpTriggerPx ≠ "0"

/-- manager.go analyzeCoverage: `hasSl := order.SlTriggerPx != "" && order.SlTriggerPx != "0"`. -/
def hasSlTrigger (order : AlgoOrder) : Bool :=
  order.SlTriggerPx ≠ "" && order.SlTriggerPx ≠ "0"

/-- The running state of the analyzeCoverage loop:
maxTpSize, maxSlSize, tpCount, slCount. -/
structure CoverageStats where
  maxTpSize : ℚ
  maxSlSize : ℚ
  tpCount : Nat
  slCount : Nat
  deriving Repr, DecidableEq

/-- One iteration of the analyzeCoverage loop over the pending algo orders:
non-matching orders and orders whose size fails to parse are skipped;
a matching order bumps the TP maximum and count when it carries a TP
trigger, and the SL maximum and count when it carries an SL trigger. -/
def coverageStep (position : Position) (st : CoverageStats) (order : AlgoOrder) :
    CoverageStats :=
  if matchesPosition order position then
    match order.Sz with
    | none => st
    | some size =>
      let st1 :=
        if hasTpTrigger order then
          { st with
            tpCount := st.tpCount + 1
            maxTpSize := if size > st.maxTpSize then size else st.maxTpSize }
        else st
      if hasSlTrigger order then
        { st1 with
          slCount := st1.slCount + 1
          maxSlSize := if size > st1.maxSlSize then size else st1.maxSlSize }
      else st1
  else st

/-- The analyzeCoverage loop, folded over the pending algo orders starting
from all-zero state. -/
def coverageStats (position : Position) (algoOrders : List AlgoOrder) :
    CoverageStats :=
  algoOrders.foldl (coverageStep position) ⟨0, 0, 0, 0⟩

/-- manager.go analyzeCoverage: covered size is min(maxTpSize, maxSlSize)
when both a TP and an SL order were seen, else 0; uncovered size is the
position size minus the covered size, clamped at 0. -/
def analyzeCoverage (position : Position) (algoOrders : List AlgoOrder) : ℚ :=
  let st := coverageStats position algoOrders
  let coveredSize : ℚ :=
    if st.tpCount > 0 ∧ st.slCount > 0 then
      if st.maxTpSize < st.maxSlSize then st.maxTpSize else st.maxSlSize
    else 0
  let uncoveredSize := position.PositionSize - coveredSize
  if uncoveredSize < 0 then 0 else uncoveredSize

/-- manager.go isLongPosition: explicit long/short side is authoritative;
otherwise (net / one-way mode) positive size means long. -/
def isLongPosition (position : Position) : Bool :=
  if position.PositionSide = PositionSideLong then true
  else if position.PositionSide = PositionSideShort then false
  else position.PositionSize > 0

/-- manager.go calculateTPSLPrices: raw TP/SL targets from entry price,
volatility percentage and profit-loss ratio; errors when the entry price
or a resulting price is not positive. -/
def calculateTPSLPrices (cfg : TPSLConfig) (position : Position) :
    Except String TPSLPrices :=
  let entryPrice := position.AveragePrice
  let volatilityPct := cfg.VolatilityPct
  let plRatio := cfg.ProfitLossRatio
  if entryPrice ≤ 0 then
    Except.error "invalid entry price"
  else
    let slDistance := entryPrice * volatilityPct
    let tpDistance := entryPrice * volatilityPct * plRatio
    let isLong := isLongPosition position
    let slPrice := if isLong then entryPrice - slDistance else entryPrice + slDistance
    let tpPrice := if isLong then entryPrice + tpDistance else entryPrice - tpDistance
    if slPrice ≤ 0 ∨ tpPrice ≤ 0 then
      Except.error "invalid calculated prices"
    else
      Except.ok { TpPrice := tpPrice, SlPrice := slPrice }

/-- manager.go adjustTPSLPricesWithCurrentPrice: reconcile the raw targets
against the current market price. A target the market has reached or
passed is replaced with a 0.1 percent buffered trigger on the valid side
of the current price; the two returned booleans are the skip flags (skipTP,
skipSL), both initialised false and never reassigned in the source. -/
def adjustTPSLPricesWithCurrentPrice (position : Position) (prices : TPSLPrices)
    (currentPrice : ℚ) : TPSLPrices × Bool × Bool :=
  let isLong := isLongPosition position
  let skipTP := false
  let skipSL := false
  if isLong then
    let tp := if currentPrice ≥ prices.TpPrice then currentPrice * (1001 / 1000)
              else prices.TpPrice
    let sl := if currentPrice ≤ prices.SlPrice then currentPrice * (999 / 1000)
              else prices.SlPrice
    ({ TpPrice := tp, SlPrice := sl }, skipTP, skipSL)
  else
    let tp := if currentPrice ≤ prices.TpPrice then currentPrice * (999 / 1000)
              else prices.TpPrice
    let sl := if currentPrice ≥ prices.SlPrice then currentPrice * (1001 / 1000)
              else prices.SlPrice
    ({ TpPrice := tp, SlPrice := sl }, skipTP, skipSL)

/-- internal/okx: AlgoOrderRequest as built by the manager. The price
fields that the source passes through formatFloat are modelled as the
rational value (none = field left at its zero value ""); the fixed string
fields keep their source values. -/
structure AlgoOrderRequest where
  InstId : String
  TdMode : String
  Side : String
  PosSide : String
  OrdType : String
  Sz : ℚ
  TpTriggerPx : Option ℚ
  TpOrdPx : String
  TpTriggerPxType : String
  SlTriggerPx : Option ℚ
  SlOrdPx : String
  SlTriggerPxType : String
  ReduceOnly : Bool
  deriving Repr, DecidableEq

/-- The OKX client calls the manager makes, modelled as response
functions. getTicker collapses GetTicker plus the last-price extraction
and parse of getCurrentMarketPrice into one fallible price lookup;
placeAlgoOrder returns the algo ids of the response data on success. -/
structure Gateway where
  getTicker : String → Except String ℚ
  placeAlgoOrder : AlgoOrderRequest → Except String (List String)
  getPendingAlgoOrders : String → Except String (List AlgoOrder)

/-- manager.go getCurrentMarketPrice: fetch the current market price for
an instrument through the gateway; any failure (transport, empty data,
parse) is an error. -/
def getCurrentMarketPrice (gw : Gateway) (instId : String) : Except String ℚ :=
  gw.getTicker instId

/-- The take-profit leg request built by the placement functions: only
the TP trigger fields are set, the SL fields stay at their zero values. -/
def mkTpRequest (position : Position) (tdMode orderSide : String) (size tpPrice : ℚ) :
    AlgoOrderRequest :=
  { InstId := position.Instrument
    TdMode := tdMode
    Side := orderSide
    PosSide := position.PositionSide
    OrdType := "conditional"
    Sz := size
    TpTriggerPx := some tpPrice
    TpOrdPx := "-1"
    TpTriggerPxType := "last"
    SlTriggerPx := none
    SlOrdPx := ""
    SlTriggerPxType := ""
    ReduceOnly := true }

/-- The stop-loss leg request built by the placement functions: only the
SL trigger fields are set, the TP fields stay at their zero values. -/
def mkSlRequest (position : Position) (tdMode orderSide : String) (size slPrice : ℚ) :
    AlgoOrderRequest :=
  { InstId := position.Instrument
    TdMode := tdMode
    Side := orderSide
    PosSide := position.PositionSide
    OrdType := "conditional"
    Sz := size
    TpTriggerPx := none
    TpOrdPx := ""
    TpTriggerPxType := ""
    SlTriggerPx := some slPrice
    SlOrdPx := "-1"
    SlTriggerPxType := "last"
    ReduceOnly := true }

/-- The closing order side chosen by both placement functions: sell to
close a long position, buy to close a short one. -/
def orderSideOf (position : Position) : String :=
  if isLongPosition position then "sell" else "buy"

/-- The trade mode chosen by both placement functions: the margin mode
of the position, defaulting to cross when the record has none. -/
def tdModeOf (position : Position) : String :=
  if position.MarginMode = "" then MarginModeCross else position.MarginMode

/-- manager.go placeTPSLOrderOriginal: fallback placement without price
validation — place the TP leg, return its error on failure, then place
the SL leg, both at the unreconciled calculated prices. The returned
list records the placeAlgoOrder calls issued, in order. -/
def placeTPSLOrderOriginal (gw : Gateway) (position : Position) (size : ℚ)
    (prices : TPSLPrices) : List AlgoOrderRequest × Except String Unit :=
  let orderSide := orderSideOf position
  let tdMode := tdModeOf position
  let tpReq := mkTpRequest position tdMode orderSide size prices.TpPrice
  match gw.placeAlgoOrder tpReq with
  | Except.error e => ([tpReq], Except.error ("Take-Profit order failed: " ++ e))
  | Except.ok _ =>
    let slReq := mkSlRequest position tdMode orderSide size prices.SlPrice
    match gw.placeAlgoOrder slReq with
    | Except.error e => ([tpReq, slReq], Except.error ("Stop-Loss order failed: " ++ e))
    | Except.ok _ => ([tpReq, slReq], Except.ok ())

/-- manager.go placeTPSLOrderWithValidation: fetch the current price (on
failure fall back to placeTPSLOrderOriginal), reconcile the prices, then
place the TP leg unless skipTP (returning its error on failure), place
the SL leg unless skipSL (returning its error on failure), and fail when
both legs were skipped. The returned list records the placeAlgoOrder
calls issued, in order. -/
def placeTPSLOrderWithValidation (gw : Gateway) (position : Position) (size : ℚ)
    (prices : TPSLPrices) : List AlgoOrderRequest × Except String Unit :=
  match getCurrentMarketPrice gw position.Instrument with
  | Except.error _ => placeTPSLOrderOriginal gw position size prices
  | Except.ok currentPrice =>
    let res := adjustTPSLPricesWithCurrentPrice position prices currentPrice
    let adjustedPrices := res.1
    let skipTP := res.2.1
    let skipSL := res.2.2
    let orderSide := orderSideOf position
    let tdMode := tdModeOf position
    let tpReq := mkTpRequest position tdMode orderSide size adjustedPrices.TpPrice
    let slReq := mkSlRequest position tdMode orderSide size adjustedPrices.SlPrice
    if skipTP then
      if skipSL then
        ([], Except.error "both TP and SL orders were skipped due to price conditions - manual intervention required")
      else
        match gw.placeAlgoOrder slReq with
        | Except.error e => ([slReq], Except.error ("Stop-Loss order failed: " ++ e))
        | Except.ok _ => ([slReq], Except.ok ())
    else
      match gw.placeAlgoOrder tpReq with
      | Except.error e => ([tpReq], Except.error ("Take-Profit order failed: " ++ e))
      | Except.ok _ =>
        if skipSL then
          ([tpReq], Except.ok ())
        else
          match gw.placeAlgoOrder slReq with
          | Except.error e => ([tpReq, slReq], Except.error ("Stop-Loss order failed: " ++ e))
          | Except.ok _ => ([tpReq, slReq], Except.ok ())

/-- manager.go AnalyzeAndPlaceTPSL, loop body for one position: bump
TotalChecked, analyze coverage, count the position as fully covered when
the uncovered size is at most 0.000001 (no placement), otherwise count
partial or no coverage, calculate prices (failure counts as a placement
failure) and place the TPSL orders. Returns the updated summary and the
placeAlgoOrder calls issued for this position. -/
def processPosition (cfg : TPSLConfig) (gw : Gateway) (algoOrders : List AlgoOrder)
    (summary : CoverageSummary) (position : Position) :
    CoverageSummary × List AlgoOrderRequest :=
  let summary := { summary with TotalChecked := summary.TotalChecked + 1 }
  let uncoveredSize := analyzeCoverage position algoOrders
  if uncoveredSize ≤ 1 / 1000000 then
    ({ summary with FullyCovered := summary.FullyCovered + 1 }, [])
  else
    let summary :=
      if uncoveredSize < position.PositionSize then
        { summary with PartiallyCovered := summary.PartiallyCovered + 1 }
      else
        { summary with NotCovered := summary.NotCovered + 1 }
    match calculateTPSLPrices cfg position with
    | Except.error _ =>
      ({ summary with PlacementFailures := summary.PlacementFailures + 1 }, [])
    | Except.ok prices =>
      let run := placeTPSLOrderWithValidation gw position uncoveredSize prices
      match run.2 with
      | Except.error _ =>
        ({ summary with PlacementFailures := summary.PlacementFailures + 1 }, run.1)
      | Except.ok _ =>
        ({ summary with OrdersPlaced := summary.OrdersPlaced + 1 }, run.1)

/-- manager.go AnalyzeAndPlaceTPSL: empty position list short-circuits
with the zero summary; otherwise fetch the pending conditional algo
orders (failure aborts) and run the per-position loop. Returns the
placeAlgoOrder calls issued across all positions and the summary. -/
def AnalyzeAndPlaceTPSL (cfg : TPSLConfig) (gw : Gateway) (positions : List Position) :
    List AlgoOrderRequest × Except String CoverageSummary :=
  if positions.isEmpty then
    ([], Except.ok CoverageSummary.empty)
  else
    match gw.getPendingAlgoOrders "conditional" with
    | Except.error e => ([], Except.error ("failed to get pending algo orders: " ++ e))
    | Except.ok algoOrders =>
      let result := positions.foldl
        (fun acc position =>
          let step := processPosition cfg gw algoOrders acc.1 position
          (step.1, acc.2 ++ step.2))
        (CoverageSummary.empty, ([] : List AlgoOrderRequest))
      (result.2, Except.ok result.1)

/-- internal/storage/storage.go: one row of the positions table as read
by GetLatestPositions. The SELECT omits the margin_mode column, so a row
carries no margin mode; the timestamp is modelled as integer seconds. -/
structure PositionRow where
  ID : Int
  Timestamp : Int
  Instrument : String
  PositionSide : String
  PositionSize : ℚ
  AveragePrice : ℚ
  UnrealizedPnL : ℚ
  Margin : ℚ
  Leverage : ℚ
  deriving Repr, DecidableEq

/-- Scanning a row into a models.Position: the fields not selected by
the query (MarginMode) stay at their zero values. -/
def rowToPosition (r : PositionRow) : Position :=
  { ID := r.ID
    Timestamp := r.Timestamp
    Instrument := r.Instrument
    PositionSide := r.PositionSide
    PositionSize := r.PositionSize
    AveragePrice := r.AveragePrice
    UnrealizedPnL := r.UnrealizedPnL
    Margin := r.Margin
    Leverage := r.Leverage
    MarginMode := "" }

/-- `SELECT MAX(timestamp) FROM positions`: none on an empty table. -/
def latestTimestamp : List PositionRow → Option Int
  | [] => none
  | r :: rs =>
    match latestTimestamp rs with
    | none => some r.Timestamp
    | some m => some (max r.Timestamp m)

/-- `ORDER BY instrument`: insertion step. -/
def insertByInstrument (r : PositionRow) : List PositionRow → List PositionRow
  | [] => [r]
  | x :: xs =>
    if r.Instrument ≤ x.Instrument then r :: x :: xs
    else x :: insertByInstrument r xs

/-- `ORDER BY instrument`: insertion sort on the instrument column. -/
def sortByInstrument : List PositionRow → List PositionRow
  | [] => []
  | x :: xs => insertByInstrument x (sortByInstrument xs)

/-- storage.go GetLatestPositions: the rows whose timestamp equals the
table maximum, ordered by instrument, scanned into positions; the empty
table yields the empty list. The function takes no current-time input
and applies no staleness check. -/
def GetLatestPositions (table : List PositionRow) : List Position :=
  match latestTimestamp table with
  | none => []
  | some m =>
    (sortByInstrument (table.filter (fun r => r.Timestamp = m))).map rowToPosition

/-- Modelled from the spec: the Staleness Filter contract missing from
the source GetLatestPositions — given the capture timestamp of the
latest snapshot and the current time, return the empty result when
`now - captureTime > threshold`, the snapshot positions unmodified
otherwise, and empty when no snapshot exists. -/
def getLatestPositionsSpec (now threshold : Int) (table : List PositionRow) :
    List Position :=
  match latestTimestamp table with
  | none => []
  | some m =>
    if now - m > threshold then []
    else (sortByInstrument (table.filter (fun r => r.Timestamp = m))).map rowToPosition

/-- Specification predicate: a pending order that analyzeCoverage counts
on the TP side — it matches the position, its size parses, and it
carries a TP trigger. -/
def matchingTpOrder (position : Position) (o : AlgoOrder) : Bool :=
  matchesPosition o position && o.Sz.isSome && hasTpTrigger o

/-- Specification predicate: a pending order that analyzeCoverage counts
on the SL side — it matches the position, its size parses, and it
carries an SL trigger. -/
def matchingSlOrder (position : Position) (o : AlgoOrder) : Bool :=
  matchesPosition o position && o.Sz.isSome && hasSlTrigger o

/-! Concrete fixtures used by witnesses and counterexamples. -/

/-- Reference configuration: volatility 1 percent, profit-loss ratio 5. -/
def cfg0 : TPSLConfig := { VolatilityPct := 1 / 100, ProfitLossRatio := 5 }

/-- A long position of size 2 entered at 100. -/
def posLong : Position :=
  { ID := 1, Timestamp := 0, Instrument := "BTC-USDT-SWAP"
    PositionSide := "long", PositionSize := 2, AveragePrice := 100
    UnrealizedPnL := 0, Margin := 0, Leverage := 10, MarginMode := "cross" }

/-- A short position of size 2 entered at 100. -/
def posShort : Position :=
  { ID := 2, Timestamp := 0, Instrument := "BTC-USDT-SWAP"
    PositionSide := "short", PositionSize := 2, AveragePrice := 100
    UnrealizedPnL := 0, Margin := 0, Leverage := 10, MarginMode := "cross" }

/-- A long position whose size is below the full-coverage tolerance. -/
def posTiny : Position :=
  { ID := 3, Timestamp := 0, Instrument := "BTC-USDT-SWAP"
    PositionSide := "long", PositionSize := 1 / 2000000, AveragePrice := 100
    UnrealizedPnL := 0, Margin := 0, Leverage := 10, MarginMode := "cross" }

/-- A live conditional order matching posLong that carries only a TP trigger. -/
def oTpOnly : AlgoOrder :=
  { AlgoId := "a1", InstId := "BTC-USDT-SWAP", PosSide := "long", Sz := some 2
    OrdType := "conditional", State := "live", TpTriggerPx := "105", SlTriggerPx := "" }

/-- A live conditional order matching posLong that carries both a TP and
an SL trigger. -/
def oBoth : AlgoOrder :=
  { AlgoId := "a2", InstId := "BTC-USDT-SWAP", PosSide := "long", Sz := some 2
    OrdType := "conditional", State := "live", TpTriggerPx := "105", SlTriggerPx := "95" }

/-- A gateway whose calls all succeed, with last price 100. -/
def gwOk : Gateway :=
  { getTicker := fun _ => Except.ok 100
    placeAlgoOrder := fun _ => Except.ok ["algo-1"]
    getPendingAlgoOrders := fun _ => Except.ok [] }

/-- A gateway whose ticker succeeds at 100 but which rejects every
request carrying a TP trigger. -/
def gwTpFail : Gateway :=
  { getTicker := fun _ => Except.ok 100
    placeAlgoOrder := fun r => if r.TpTriggerPx.isSome then Except.error "rejected" else Except.ok ["algo-2"]
    getPendingAlgoOrders := fun _ => Except.ok [] }

/-- A gateway whose ticker is down while order placement succeeds. -/
def gwNoTicker : Gateway :=
  { getTicker := fun _ => Except.error "ticker down"
    placeAlgoOrder := fun _ => Except.ok ["algo-3"]
    getPendingAlgoOrders := fun _ => Except.ok [] }

/-- The single stale row of the positions table in the staleness
scenario: captured at time 0. -/
def staleRow : PositionRow :=
  { ID := 1, Timestamp := 0, Instrument := "BTC-USDT-SWAP"
    PositionSide := "long", PositionSize := 2, AveragePrice := 100
    UnrealizedPnL := 0, Margin := 0, Leverage := 10 }

/-! Helper lemmas about the reconciler. -/

theorem adjust_skip_flags (position : Position) (prices : TPSLPrices) (c : ℚ) :
    (adjustTPSLPricesWithCurrentPrice position prices c).2 = (false, false) := by
  unfold adjustTPSLPricesWithCurrentPrice
  by_cases h : isLongPosition position <;> simp [h]

theorem adjust_prices_long (position : Position) (prices : TPSLPrices) (c : ℚ)
    (h : isLongPosition position = true) :
    (adjustTPSLPricesWithCurrentPrice position prices c).1 =
      { TpPrice := if c ≥ prices.TpPrice then c * (1001 / 1000) else prices.TpPrice
        SlPrice := if c ≤ prices.SlPrice then c * (999 / 1000) else prices.SlPrice } := by
  unfold adjustTPSLPricesWithCurrentPrice
  simp [h]

theorem adjust_prices_short (position : Position) (prices : TPSLPrices) (c : ℚ)
    (h : isLongPosition position = false) :
    (adjustTPSLPricesWithCurrentPrice position prices c).1 =
      { TpPrice := if c ≤ prices.TpPrice then c * (999 / 1000) else prices.TpPrice
        SlPrice := if c ≥ prices.SlPrice then c * (1001 / 1000) else prices.SlPrice } := by
  unfold adjustTPSLPricesWithCurrentPrice
  simp [h]

/-- C4: for every position, raw target prices and positive current
price, the reconciled prices satisfy the venue monotonicity constraint:
long TP strictly above and long SL strictly below the current price,
short TP strictly below and short SL strictly above it, in every
combination of direction and of the market being on either side of each
raw target. -/
theorem adjust_satisfies_venue_monotonicity (position : Position) (prices : TPSLPrices)
    (c : ℚ) (h : 0 < c) :
    (isLongPosition position = true →
       c < (adjustTPSLPricesWithCurrentPrice position prices c).1.TpPrice ∧
       (adjustTPSLPricesWithCurrentPrice position prices c).1.SlPrice < c) ∧
    (isLongPosition position = false →
       (adjustTPSLPricesWithCurrentPrice position prices c).1.TpPrice < c ∧
       c < (adjustTPSLPricesWithCurrentPrice position prices c).1.SlPrice) := by
  constructor
  · intro hl
    rw [adjust_prices_long position prices c hl]
    constructor
    · show c < if c ≥ prices.TpPrice then c * (1001 / 1000) else prices.TpPrice
      split_ifs with h1
      · linarith
      · push_neg at h1; linarith
    · show (if c ≤ prices.SlPrice then c * (999 / 1000) else prices.SlPrice) < c
      split_ifs with h1
      · linarith
      · push_neg at h1; linarith
  · intro hs
    rw [adjust_prices_short position prices c hs]
    constructor
    · show (if c ≤ prices.TpPrice then c * (999 / 1000) else prices.TpPrice) < c
      split_ifs with h1
      · linarith
      · push_neg at h1; linarith
    · show c < if c ≥ prices.SlPrice then c * (1001 / 1000) else prices.SlPrice
      split_ifs with h1
      · linarith
      · push_neg at h1; linarith

/-- Witness for C4 at a concrete input: long position, raw TP 105 and
SL 99, current price 100. -/
theorem adjust_satisfies_venue_monotonicity_witness :
    (0 : ℚ) < 100 ∧
    ((isLongPosition posLong = true →
        100 < (adjustTPSLPricesWithCurrentPrice posLong ⟨105, 99⟩ 100).1.TpPrice ∧
        (adjustTPSLPricesWithCurrentPrice posLong ⟨105, 99⟩ 100).1.SlPrice < 100) ∧
     (isLongPosition posLong = false →
        (adjustTPSLPricesWithCurrentPrice posLong ⟨105, 99⟩ 100).1.TpPrice < 100 ∧
        100 < (adjustTPSLPricesWithCurrentPrice posLong ⟨105, 99⟩ 100).1.SlPrice)) :=
  ⟨by norm_num, adjust_satisfies_venue_monotonicity posLong ⟨105, 99⟩ 100 (by norm_num)⟩

/-- C5: the reconciler never skips the stop-loss leg: skipSL is always
false, and when the market is at or past the raw SL target the SL price
is replaced with the 0.1 percent emergency buffer on the valid side of
the current price; in the concrete short scenario (entry 100, volatility
0.01, raw SL 101, current 102) the adjusted SL is 102.102. -/
theorem adjust_sl_never_skipped (position : Position) (prices : TPSLPrices) (c : ℚ) :
    ((adjustTPSLPricesWithCurrentPrice position prices c).2.2 = false) ∧
    (isLongPosition position = true → c ≤ prices.SlPrice →
       (adjustTPSLPricesWithCurrentPrice position prices c).1.SlPrice = c * (999 / 1000)) ∧
    (isLongPosition position = false → prices.SlPrice ≤ c →
       (adjustTPSLPricesWithCurrentPrice position prices c).1.SlPrice = c * (1001 / 1000)) ∧
    (calculateTPSLPrices cfg0 posShort = Except.ok { TpPrice := 95, SlPrice := 101 } ∧
     (adjustTPSLPricesWithCurrentPrice posShort { TpPrice := 95, SlPrice := 101 } 102).1.SlPrice =
       102102 / 1000 ∧
     (adjustTPSLPricesWithCurrentPrice posShort { TpPrice := 95, SlPrice := 101 } 102).2.2 = false) := by
  have hskip := adjust_skip_flags position prices c
  have hshort : isLongPosition posShort = false := by decide
  refine ⟨?_, ?_, ?_, ?_, ?_, ?_⟩
  · rw [hskip]
  · intro hl hsl
    rw [adjust_prices_long position prices c hl]
    show (if c ≤ prices.SlPrice then c * (999 / 1000) else prices.SlPrice) = c * (999 / 1000)
    rw [if_pos hsl]
  · intro hs hsl
    rw [adjust_prices_short position prices c hs]
    show (if c ≥ prices.SlPrice then c * (1001 / 1000) else prices.SlPrice) = c * (1001 / 1000)
    rw [if_pos hsl]
  · have h1 : isLongPosition posShort = false := hshort
    unfold calculateTPSLPrices
    rw [h1]
    norm_num [posShort, cfg0]
  · rw [adjust_prices_short posShort ⟨95, 101⟩ 102 hshort]
    show (if (102 : ℚ) ≥ 101 then (102 : ℚ) * (1001 / 1000) else 101) = 102102 / 1000
    rw [if_pos (by norm_num)]
    norm_num
  · rw [adjust_skip_flags posShort ⟨95, 101⟩ 102]

/-- Witness for C5 at a concrete input: short position, raw SL 101,
current price 102 at or past the target. -/
theorem adjust_sl_never_skipped_witness :
    isLongPosition posShort = false ∧ (101 : ℚ) ≤ 102 ∧
    (adjustTPSLPricesWithCurrentPrice posShort { TpPrice := 95, SlPrice := 101 } 102).1.SlPrice =
      102 * (1001 / 1000) :=
  ⟨by decide, by norm_num,
    (adjust_sl_never_skipped posShort { TpPrice := 95, SlPrice := 101 } 102).2.2.1
      (by decide) (by norm_num)⟩

/-- Helper: with a successful price fetch the placement run reduces to
the TP leg followed by the SL leg at the reconciled prices, since both
skip flags are false. -/
theorem placeTPSL_ok_ticker (gw : Gateway) (position : Position) (size : ℚ)
    (prices : TPSLPrices) (c : ℚ)
    (h : gw.getTicker position.Instrument = Except.ok c) :
    placeTPSLOrderWithValidation gw position size prices =
      (match gw.placeAlgoOrder (mkTpRequest position (tdModeOf position) (orderSideOf position)
          size (adjustTPSLPricesWithCurrentPrice position prices c).1.TpPrice) with
       | Except.error e =>
         ([mkTpRequest position (tdModeOf position) (orderSideOf position) size
             (adjustTPSLPricesWithCurrentPrice position prices c).1.TpPrice],
          Except.error ("Take-Profit order failed: " ++ e))
       | Except.ok _ =>
         match gw.placeAlgoOrder (mkSlRequest position (tdModeOf position) (orderSideOf position)
             size (adjustTPSLPricesWithCurrentPrice position prices c).1.SlPrice) with
         | Except.error e =>
           ([mkTpRequest position (tdModeOf position) (orderSideOf position) size
               (adjustTPSLPricesWithCurrentPrice position prices c).1.TpPrice,
             mkSlRequest position (tdModeOf position) (orderSideOf position) size
               (adjustTPSLPricesWithCurrentPrice position prices c).1.SlPrice],
            Except.error ("Stop-Loss order failed: " ++ e))
         | Except.ok _ =>
           ([mkTpRequest position (tdModeOf position) (orderSideOf position) size
               (adjustTPSLPricesWithCurrentPrice position prices c).1.TpPrice,
             mkSlRequest position (tdModeOf position) (orderSideOf position) size
               (adjustTPSLPricesWithCurrentPrice position prices c).1.SlPrice],
            Except.ok ())) := by
  unfold placeTPSLOrderWithValidation getCurrentMarketPrice
  rw [h]
  simp only [adjust_skip_flags, Bool.false_eq_true, if_false]

/-- C9: the reconciler returns skipTP = false and skipSL = false on
every input; consequently, whenever the price fetch succeeds, the
placement run always issues the TP leg first and its outcome is one of
the non-skip return sites — never the terminal error reserved for both
legs being skipped. -/
theorem skip_branches_unreachable :
    (∀ (position : Position) (prices : TPSLPrices) (c : ℚ),
        (adjustTPSLPricesWithCurrentPrice position prices c).2.1 = false ∧
        (adjustTPSLPricesWithCurrentPrice position prices c).2.2 = false) ∧
    (∀ (gw : Gateway) (position : Position) (size : ℚ) (prices : TPSLPrices) (c : ℚ),
        gw.getTicker position.Instrument = Except.ok c →
        (∃ rest, (placeTPSLOrderWithValidation gw position size prices).1 =
            mkTpRequest position (tdModeOf position) (orderSideOf position) size
              (adjustTPSLPricesWithCurrentPrice position prices c).1.TpPrice :: rest) ∧
        ((placeTPSLOrderWithValidation gw position size prices).2 = Except.ok () ∨
         (∃ e, (placeTPSLOrderWithValidation gw position size prices).2 =
            Except.error ("Take-Profit order failed: " ++ e)) ∨
         (∃ e, (placeTPSLOrderWithValidation gw position size prices).2 =
            Except.error ("Stop-Loss order failed: " ++ e)))) := by
  constructor
  · intro position prices c
    rw [adjust_skip_flags position prices c]
    exact ⟨rfl, rfl⟩
  · intro gw position size prices c h
    rw [placeTPSL_ok_ticker gw position size prices c h]
    rcases htp : gw.placeAlgoOrder (mkTpRequest position (tdModeOf position)
        (orderSideOf position) size
        (adjustTPSLPricesWithCurrentPrice position prices c).1.TpPrice) with e | ids
    · exact ⟨⟨[], rfl⟩, Or.inr (Or.inl ⟨e, rfl⟩)⟩
    · rcases hsl : gw.placeAlgoOrder (mkSlRequest position (tdModeOf position)
          (orderSideOf position) size
          (adjustTPSLPricesWithCurrentPrice position prices c).1.SlPrice) with e | ids2
      · exact ⟨⟨_, rfl⟩, Or.inr (Or.inr ⟨e, rfl⟩)⟩
      · exact ⟨⟨_, rfl⟩, Or.inl rfl⟩

/-- Witness for C9 at a concrete input: the all-success gateway, the
long fixture position and raw prices 105 and 99. -/
theorem skip_branches_unreachable_witness :
    gwOk.getTicker posLong.Instrument = Except.ok 100 ∧
    ((∃ rest, (placeTPSLOrderWithValidation gwOk posLong 1 ⟨105, 99⟩).1 =
        mkTpRequest posLong (tdModeOf posLong) (orderSideOf posLong) 1
          (adjustTPSLPricesWithCurrentPrice posLong ⟨105, 99⟩ 100).1.TpPrice :: rest) ∧
     ((placeTPSLOrderWithValidation gwOk posLong 1 ⟨105, 99⟩).2 = Except.ok () ∨
      (∃ e, (placeTPSLOrderWithValidation gwOk posLong 1 ⟨105, 99⟩).2 =
         Except.error ("Take-Profit order failed: " ++ e)) ∨
      (∃ e, (placeTPSLOrderWithValidation gwOk posLong 1 ⟨105, 99⟩).2 =
         Except.error ("Stop-Loss order failed: " ++ e)))) :=
  ⟨rfl, skip_branches_unreachable.2 gwOk posLong 1 ⟨105, 99⟩ 100 rfl⟩

/-- Helper: placeTPSLOrderOriginal written as the explicit two-leg
match, obtained by zeta-reducing its lets. -/
theorem placeTPSLOrderOriginal_eq (gw : Gateway) (position : Position) (size : ℚ)
    (prices : TPSLPrices) :
    placeTPSLOrderOriginal gw position size prices =
      (match gw.placeAlgoOrder (mkTpRequest position (tdModeOf position) (orderSideOf position)
          size prices.TpPrice) with
       | Except.error e =>
         ([mkTpRequest position (tdModeOf position) (orderSideOf position) size prices.TpPrice],
          Except.error ("Take-Profit order failed: " ++ e))
       | Except.ok _ =>
         match gw.placeAlgoOrder (mkSlRequest position (tdModeOf position) (orderSideOf position)
             size prices.SlPrice) with
         | Except.error e =>
           ([mkTpRequest position (tdModeOf position) (orderSideOf position) size prices.TpPrice,
             mkSlRequest position (tdModeOf position) (orderSideOf position) size prices.SlPrice],
            Except.error ("Stop-Loss order failed: " ++ e))
         | Except.ok _ =>
           ([mkTpRequest position (tdModeOf position) (orderSideOf position) size prices.TpPrice,
             mkSlRequest position (tdModeOf position) (orderSideOf position) size prices.SlPrice],
            Except.ok ())) := rfl

/-- C1 counterexample: with a successful price fetch and a gateway that
rejects the TP leg, the run ends in the TP error and the issued request
list contains no SL leg at all — the SL placement call is never made. -/
theorem tp_error_blocks_sl_cex :
    gwTpFail.getTicker posLong.Instrument = Except.ok 100 ∧
    (placeTPSLOrderWithValidation gwTpFail posLong 1 ⟨105, 99⟩).2 =
      Except.error ("Take-Profit order failed: " ++ "rejected") ∧
    ∀ r ∈ (placeTPSLOrderWithValidation gwTpFail posLong 1 ⟨105, 99⟩).1,
      r.SlTriggerPx = none := by
  refine ⟨rfl, rfl, ?_⟩
  intro r hr
  have h1 : (placeTPSLOrderWithValidation gwTpFail posLong 1 ⟨105, 99⟩).1 =
      [mkTpRequest posLong (tdModeOf posLong) (orderSideOf posLong) 1
        (adjustTPSLPricesWithCurrentPrice posLong ⟨105, 99⟩ 100).1.TpPrice] := rfl
  rw [h1, List.mem_singleton] at hr
  subst hr
  rfl

/-- C1 amended: in normal placement a failure of the TP leg aborts the
run — the TP error is returned and the SL placement call is not issued
(the request list holds only the TP leg). -/
theorem placeTPSL_tp_failure_aborts (gw : Gateway) (position : Position) (size : ℚ)
    (prices : TPSLPrices) (c : ℚ) (e : String)
    (hTicker : gw.getTicker position.Instrument = Except.ok c)
    (hPlace : gw.placeAlgoOrder (mkTpRequest position (tdModeOf position) (orderSideOf position)
        size (adjustTPSLPricesWithCurrentPrice position prices c).1.TpPrice) = Except.error e) :
    placeTPSLOrderWithValidation gw position size prices =
      ([mkTpRequest position (tdModeOf position) (orderSideOf position) size
          (adjustTPSLPricesWithCurrentPrice position prices c).1.TpPrice],
       Except.error ("Take-Profit order failed: " ++ e)) := by
  rw [placeTPSL_ok_ticker gw position size prices c hTicker, hPlace]

/-- Witness for the amended C1 at a concrete input: the TP-rejecting
gateway, the long fixture position, raw prices 105 and 99. -/
theorem placeTPSL_tp_failure_aborts_witness :
    placeTPSLOrderWithValidation gwTpFail posLong 1 ⟨105, 99⟩ =
      ([mkTpRequest posLong (tdModeOf posLong) (orderSideOf posLong) 1
          (adjustTPSLPricesWithCurrentPrice posLong ⟨105, 99⟩ 100).1.TpPrice],
       Except.error ("Take-Profit order failed: " ++ "rejected")) :=
  placeTPSL_tp_failure_aborts gwTpFail posLong 1 ⟨105, 99⟩ 100 "rejected" rfl rfl

/-- C8: when the price fetch fails, placement falls back to the
degraded path: it equals placeTPSLOrderOriginal, whose first issued
request is the TP leg at the unreconciled TpPrice, and when that leg is
accepted the full run issues exactly the TP and SL legs at the
unreconciled calculated prices — no live-price adjustment. -/
theorem placeTPSL_degraded_mode (gw : Gateway) (position : Position) (size : ℚ)
    (prices : TPSLPrices) (e : String)
    (hTicker : gw.getTicker position.Instrument = Except.error e) :
    placeTPSLOrderWithValidation gw position size prices =
      placeTPSLOrderOriginal gw position size prices ∧
    (placeTPSLOrderOriginal gw position size prices).1.head? =
      some (mkTpRequest position (tdModeOf position) (orderSideOf position) size prices.TpPrice) ∧
    (∀ ids, gw.placeAlgoOrder (mkTpRequest position (tdModeOf position) (orderSideOf position)
        size prices.TpPrice) = Except.ok ids →
      (placeTPSLOrderOriginal gw position size prices).1 =
        [mkTpRequest position (tdModeOf position) (orderSideOf position) size prices.TpPrice,
         mkSlRequest position (tdModeOf position) (orderSideOf position) size prices.SlPrice]) := by
  refine ⟨?_, ?_, ?_⟩
  · unfold placeTPSLOrderWithValidation getCurrentMarketPrice
    rw [hTicker]
  · rw [placeTPSLOrderOriginal_eq]
    rcases htp : gw.placeAlgoOrder (mkTpRequest position (tdModeOf position)
        (orderSideOf position) size prices.TpPrice) with e1 | ids
    · rfl
    · rcases hsl : gw.placeAlgoOrder (mkSlRequest position (tdModeOf position)
          (orderSideOf position) size prices.SlPrice) with e2 | ids2
      · rfl
      · rfl
  · intro ids htp
    rw [placeTPSLOrderOriginal_eq, htp]
    rcases hsl : gw.placeAlgoOrder (mkSlRequest position (tdModeOf position)
        (orderSideOf position) size prices.SlPrice) with e2 | ids2
    · rfl
    · rfl

/-- Witness for C8 at a concrete input: the gateway with a failing
ticker, the long fixture position, raw prices 105 and 99. -/
theorem placeTPSL_degraded_mode_witness :
    placeTPSLOrderWithValidation gwNoTicker posLong 1 ⟨105, 99⟩ =
      placeTPSLOrderOriginal gwNoTicker posLong 1 ⟨105, 99⟩ ∧
    (placeTPSLOrderOriginal gwNoTicker posLong 1 ⟨105, 99⟩).1.head? =
      some (mkTpRequest posLong (tdModeOf posLong) (orderSideOf posLong) 1
        (105 : ℚ)) ∧
    (∀ ids, gwNoTicker.placeAlgoOrder (mkTpRequest posLong (tdModeOf posLong)
        (orderSideOf posLong) 1 (105 : ℚ)) = Except.ok ids →
      (placeTPSLOrderOriginal gwNoTicker posLong 1 ⟨105, 99⟩).1 =
        [mkTpRequest posLong (tdModeOf posLong) (orderSideOf posLong) 1 (105 : ℚ),
         mkSlRequest posLong (tdModeOf posLong) (orderSideOf posLong) 1 (99 : ℚ)]) :=
  placeTPSL_degraded_mode gwNoTicker posLong 1 ⟨105, 99⟩ "ticker down" rfl

/-! Helper lemmas about the coverage scan. -/

theorem coverageStep_tpCount (position : Position) (st : CoverageStats) (o : AlgoOrder) :
    (coverageStep position st o).tpCount =
      st.tpCount + (if matchingTpOrder position o then 1 else 0) := by
  unfold coverageStep matchingTpOrder
  cases hm : matchesPosition o position
  · simp [hm]
  · cases hsz : o.Sz
    · simp [hsz]
    · cases htp : hasTpTrigger o <;> cases hsl : hasSlTrigger o <;>
        simp [hsz, htp, hsl]

theorem coverageStep_slCount (position : Position) (st : CoverageStats) (o : AlgoOrder) :
    (coverageStep position st o).slCount =
      st.slCount + (if matchingSlOrder position o then 1 else 0) := by
  unfold coverageStep matchingSlOrder
  cases hm : matchesPosition o position
  · simp [hm]
  · cases hsz : o.Sz
    · simp [hsz]
    · cases htp : hasTpTrigger o <;> cases hsl : hasSlTrigger o <;>
        simp [hsz, htp, hsl]

theorem coverage_foldl_tpCount (position : Position) (orders : List AlgoOrder) :
    ∀ st : CoverageStats,
      (orders.foldl (coverageStep position) st).tpCount =
        st.tpCount + orders.countP (matchingTpOrder position) := by
  induction orders with
  | nil => intro st; simp
  | cons o os ih =>
    intro st
    simp only [List.foldl_cons, List.countP_cons, ih, coverageStep_tpCount]
    omega

theorem coverage_foldl_slCount (position : Position) (orders : List AlgoOrder) :
    ∀ st : CoverageStats,
      (orders.foldl (coverageStep position) st).slCount =
        st.slCount + orders.countP (matchingSlOrder position) := by
  induction orders with
  | nil => intro st; simp
  | cons o os ih =>
    intro st
    simp only [List.foldl_cons, List.countP_cons, ih, coverageStep_slCount]
    omega

theorem coverageStats_tpCount_pos (position : Position) (orders : List AlgoOrder) :
    0 < (coverageStats position orders).tpCount ↔
      ∃ o ∈ orders, matchingTpOrder position o = true := by
  unfold coverageStats
  rw [coverage_foldl_tpCount]
  simp [List.countP_pos_iff]

theorem coverageStats_slCount_pos (position : Position) (orders : List AlgoOrder) :
    0 < (coverageStats position orders).slCount ↔
      ∃ o ∈ orders, matchingSlOrder position o = true := by
  unfold coverageStats
  rw [coverage_foldl_slCount]
  simp [List.countP_pos_iff]

/-- C3: analyzeCoverage returns max(0, size − covered), where covered is
min(maxTpSize, maxSlSize) when some matching sized order carries a TP
trigger and some matching sized order carries an SL trigger, and 0
otherwise; in particular a nonnegative position protected only on one
side is entirely uncovered. -/
theorem analyzeCoverage_minmax_formula (position : Position) (orders : List AlgoOrder) :
    (analyzeCoverage position orders =
       max 0 (position.PositionSize -
         (if (∃ o ∈ orders, matchingTpOrder position o = true) ∧
             (∃ o ∈ orders, matchingSlOrder position o = true) then
            min (coverageStats position orders).maxTpSize
              (coverageStats position orders).maxSlSize
          else 0))) ∧
    (0 ≤ position.PositionSize →
       (¬ (∃ o ∈ orders, matchingTpOrder position o = true) ∨
        ¬ (∃ o ∈ orders, matchingSlOrder position o = true)) →
       analyzeCoverage position orders = position.PositionSize) := by
  have htp := coverageStats_tpCount_pos position orders
  have hsl := coverageStats_slCount_pos position orders
  have ite_lt_min : ∀ a b : ℚ, (if a < b then a else b) = min a b := by
    intro a b
    rcases lt_or_le a b with h | h
    · rw [if_pos h, min_eq_left (le_of_lt h)]
    · rw [if_neg (not_lt.mpr h), min_eq_right h]
  have ite_clamp : ∀ u : ℚ, (if u < 0 then 0 else u) = max 0 u := by
    intro u
    rcases lt_or_le u 0 with h | h
    · rw [if_pos h, max_eq_left (le_of_lt h)]
    · rw [if_neg (not_lt.mpr h), max_eq_right h]
  constructor
  · simp only [analyzeCoverage, ite_lt_min, ite_clamp, gt_iff_lt, htp, hsl]
  · intro hpos hone
    have hcond : ¬ ((∃ o ∈ orders, matchingTpOrder position o = true) ∧
        (∃ o ∈ orders, matchingSlOrder position o = true)) := by
      intro hcon
      rcases hone with h | h
      · exact h hcon.1
      · exact h hcon.2
    simp only [analyzeCoverage, ite_lt_min, ite_clamp, gt_iff_lt, htp, hsl]
    rw [if_neg hcond, sub_zero, max_eq_right hpos]

/-- Witness for C3 at a concrete input: the long fixture position with
one TP-only matching order is entirely uncovered. -/
theorem analyzeCoverage_minmax_formula_witness :
    (0 : ℚ) ≤ posLong.PositionSize ∧
    analyzeCoverage posLong [oTpOnly] = posLong.PositionSize :=
  ⟨by norm_num [posLong],
   (analyzeCoverage_minmax_formula posLong [oTpOnly]).2 (by norm_num [posLong])
     (Or.inr (by decide))⟩

/-- C7 counterexample: a single matching live conditional order carrying
both a TP and an SL trigger contributes its size 2 to both running
maxima at once (both counts become 1), refuting that every matching
order feeds exactly one of the two maxima. -/
theorem order_feeds_both_maxima_cex :
    matchesPosition oBoth posLong = true ∧ oBoth.Sz = some 2 ∧
    hasTpTrigger oBoth = true ∧ hasSlTrigger oBoth = true ∧
    (coverageStats posLong [oBoth]).maxTpSize = 2 ∧
    (coverageStats posLong [oBoth]).maxSlSize = 2 ∧
    ¬ (((coverageStats posLong [oBoth]).maxTpSize = 2 ∧
        (coverageStats posLong [oBoth]).maxSlSize = 0) ∨
       ((coverageStats posLong [oBoth]).maxSlSize = 2 ∧
        (coverageStats posLong [oBoth]).maxTpSize = 0)) := by
  refine ⟨by decide, by decide, by decide, by decide, ?_, ?_, ?_⟩
  · show (coverageStep posLong ⟨0, 0, 0, 0⟩ oBoth).maxTpSize = 2
    decide
  · show (coverageStep posLong ⟨0, 0, 0, 0⟩ oBoth).maxSlSize = 2
    decide
  · intro hcon
    rcases hcon with ⟨h1, h2⟩ | ⟨h1, h2⟩
    · have : (coverageStep posLong ⟨0, 0, 0, 0⟩ oBoth).maxSlSize = 0 := h2
      revert this; decide
    · have : (coverageStep posLong ⟨0, 0, 0, 0⟩ oBoth).maxTpSize = 0 := h2
      revert this; decide

/-- C7 amended: a matching order with a parseable size contributes that
size to the running maximum of each trigger kind it carries — the TP
maximum becomes max(previous, size) exactly when the order has a TP
trigger, likewise the SL maximum; an order carrying both triggers feeds
both maxima, one carrying neither feeds neither. -/
theorem coverageStep_trigger_contribution (position : Position) (st : CoverageStats)
    (o : AlgoOrder) (s : ℚ) (hm : matchesPosition o position = true)
    (hs : o.Sz = some s) :
    (coverageStep position st o).maxTpSize =
      (if hasTpTrigger o then max st.maxTpSize s else st.maxTpSize) ∧
    (coverageStep position st o).maxSlSize =
      (if hasSlTrigger o then max st.maxSlSize s else st.maxSlSize) ∧
    (coverageStep position st o).tpCount =
      st.tpCount + (if hasTpTrigger o then 1 else 0) ∧
    (coverageStep position st o).slCount =
      st.slCount + (if hasSlTrigger o then 1 else 0) := by
  have hmax : ∀ a : ℚ, (if s > a then s else a) = max a s := by
    intro a
    rcases lt_or_le a s with h | h
    · rw [if_pos h, max_eq_right (le_of_lt h)]
    · rw [if_neg (not_lt.mpr h), max_eq_left h]
  unfold coverageStep
  rw [hm, hs]
  cases htp : hasTpTrigger o <;> cases hsl : hasSlTrigger o <;>
    simp [htp, hsl, hmax]

/-- Witness for the amended C7 at a concrete input: the both-trigger
fixture order against the long fixture position from the zero state. -/
theorem coverageStep_trigger_contribution_witness :
    (coverageStep posLong ⟨0, 0, 0, 0⟩ oBoth).maxTpSize =
      (if hasTpTrigger oBoth then max (0 : ℚ) 2 else 0) ∧
    (coverageStep posLong ⟨0, 0, 0, 0⟩ oBoth).maxSlSize =
      (if hasSlTrigger oBoth then max (0 : ℚ) 2 else 0) ∧
    (coverageStep posLong ⟨0, 0, 0, 0⟩ oBoth).tpCount =
      0 + (if hasTpTrigger oBoth then 1 else 0) ∧
    (coverageStep posLong ⟨0, 0, 0, 0⟩ oBoth).slCount =
      0 + (if hasSlTrigger oBoth then 1 else 0) :=
  coverageStep_trigger_contribution posLong ⟨0, 0, 0, 0⟩ oBoth 2 (by decide) (by decide)

/-- C6: calculateTPSLPrices fails exactly when the entry price or one of
the resulting prices is not positive; on success it returns exactly the
direction formulas (long: SL = entry − entry·vol, TP = entry +
entry·vol·ratio; short mirrored); and a net side resolves to long
exactly when the position size is positive. -/
theorem calculateTPSLPrices_contract (cfg : TPSLConfig) (position : Position) :
    ((∃ e, calculateTPSLPrices cfg position = Except.error e) ↔
       (position.AveragePrice ≤ 0 ∨
        (if isLongPosition position then
           position.AveragePrice - position.AveragePrice * cfg.VolatilityPct
         else position.AveragePrice + position.AveragePrice * cfg.VolatilityPct) ≤ 0 ∨
        (if isLongPosition position then
           position.AveragePrice + position.AveragePrice * cfg.VolatilityPct * cfg.ProfitLossRatio
         else position.AveragePrice - position.AveragePrice * cfg.VolatilityPct * cfg.ProfitLossRatio) ≤ 0)) ∧
    (∀ pr, calculateTPSLPrices cfg position = Except.ok pr →
       pr = { TpPrice :=
                if isLongPosition position then
                  position.AveragePrice + position.AveragePrice * cfg.VolatilityPct * cfg.ProfitLossRatio
                else position.AveragePrice - position.AveragePrice * cfg.VolatilityPct * cfg.ProfitLossRatio
              SlPrice :=
                if isLongPosition position then
                  position.AveragePrice - position.AveragePrice * cfg.VolatilityPct
                else position.AveragePrice + position.AveragePrice * cfg.VolatilityPct }) ∧
    (position.PositionSide = PositionSideNet →
       (isLongPosition position = true ↔ 0 < position.PositionSize)) := by
  have hnet : position.PositionSide = PositionSideNet →
      (isLongPosition position = true ↔ 0 < position.PositionSize) := by
    intro hn
    have hL : ¬ (PositionSideNet = PositionSideLong) := by decide
    have hS : ¬ (PositionSideNet = PositionSideShort) := by decide
    simp [isLongPosition, hn, hL, hS]
  set slF := (if isLongPosition position then
      position.AveragePrice - position.AveragePrice * cfg.VolatilityPct
    else position.AveragePrice + position.AveragePrice * cfg.VolatilityPct) with hslF
  set tpF := (if isLongPosition position then
      position.AveragePrice + position.AveragePrice * cfg.VolatilityPct * cfg.ProfitLossRatio
    else position.AveragePrice - position.AveragePrice * cfg.VolatilityPct * cfg.ProfitLossRatio) with htpF
  have hform : calculateTPSLPrices cfg position =
      (if position.AveragePrice ≤ 0 then Except.error "invalid entry price"
       else if slF ≤ 0 ∨ tpF ≤ 0 then Except.error "invalid calculated prices"
       else Except.ok { TpPrice := tpF, SlPrice := slF }) := rfl
  refine ⟨?_, ?_, hnet⟩
  · rw [hform]
    by_cases h0 : position.AveragePrice ≤ 0
    · rw [if_pos h0]
      exact ⟨fun _ => Or.inl h0, fun _ => ⟨"invalid entry price", rfl⟩⟩
    · rw [if_neg h0]
      by_cases h1 : slF ≤ 0 ∨ tpF ≤ 0
      · rw [if_pos h1]
        exact ⟨fun _ => Or.inr h1, fun _ => ⟨"invalid calculated prices", rfl⟩⟩
      · rw [if_neg h1]
        constructor
        · rintro ⟨e, he⟩
          exact absurd he (by simp)
        · intro hcon
          rcases hcon with h | h
          · exact absurd h h0
          · rcases h with h | h
            · exact absurd (Or.inl h) h1
            · exact absurd (Or.inr h) h1
  · rw [hform]
    by_cases h0 : position.AveragePrice ≤ 0
    · rw [if_pos h0]
      intro pr hpr
      exact absurd hpr (by simp)
    · rw [if_neg h0]
      by_cases h1 : slF ≤ 0 ∨ tpF ≤ 0
      · rw [if_pos h1]
        intro pr hpr
        exact absurd hpr (by simp)
      · rw [if_neg h1]
        intro pr hpr
        simp only [Except.ok.injEq] at hpr
        exact hpr.symm

/-- Witness for C6 at a concrete input: the reference configuration and
the short fixture position (entry 100, volatility 0.01, ratio 5). -/
theorem calculateTPSLPrices_contract_witness :
    calculateTPSLPrices cfg0 posShort = Except.ok { TpPrice := 95, SlPrice := 101 } ∧
    ({ TpPrice := 95, SlPrice := 101 } : TPSLPrices) =
      { TpPrice :=
          if isLongPosition posShort then
            posShort.AveragePrice + posShort.AveragePrice * cfg0.VolatilityPct * cfg0.ProfitLossRatio
          else posShort.AveragePrice - posShort.AveragePrice * cfg0.VolatilityPct * cfg0.ProfitLossRatio
        SlPrice :=
          if isLongPosition posShort then
            posShort.AveragePrice - posShort.AveragePrice * cfg0.VolatilityPct
          else posShort.AveragePrice + posShort.AveragePrice * cfg0.VolatilityPct } := by
  have hshort : isLongPosition posShort = false := by decide
  have hok : calculateTPSLPrices cfg0 posShort = Except.ok { TpPrice := 95, SlPrice := 101 } := by
    unfold calculateTPSLPrices
    rw [hshort]
    norm_num [posShort, cfg0]
  exact ⟨hok, (calculateTPSLPrices_contract cfg0 posShort).2.1 _ hok⟩

/-- C10: the per-position loop of AnalyzeAndPlaceTPSL counts a position
whose uncovered size is at most 0.000001 as fully covered and performs
no placement for it, and issues placement calls only when the uncovered
size exceeds the tolerance. -/
theorem processPosition_full_coverage_tolerance (cfg : TPSLConfig) (gw : Gateway)
    (orders : List AlgoOrder) (summary : CoverageSummary) (position : Position) :
    (analyzeCoverage position orders ≤ 1 / 1000000 →
       processPosition cfg gw orders summary position =
         ({ summary with
             TotalChecked := summary.TotalChecked + 1
             FullyCovered := summary.FullyCovered + 1 }, [])) ∧
    ((processPosition cfg gw orders summary position).2 ≠ [] →
       1 / 1000000 < analyzeCoverage position orders) := by
  have hfull : analyzeCoverage position orders ≤ 1 / 1000000 →
      processPosition cfg gw orders summary position =
        ({ summary with
            TotalChecked := summary.TotalChecked + 1
            FullyCovered := summary.FullyCovered + 1 }, []) := by
    intro h
    unfold processPosition
    rw [if_pos h]
  refine ⟨hfull, ?_⟩
  intro hne
  rcases le_or_lt (analyzeCoverage position orders) (1 / 1000000) with h | h
  · exact absurd (by rw [hfull h]) hne
  · exact h

/-- Witness for C10 at a concrete input: the tiny long fixture position
(size 0.0000005, strictly positive but below the tolerance) with no
pending orders. -/
theorem processPosition_full_coverage_tolerance_witness :
    0 < analyzeCoverage posTiny [] ∧
    analyzeCoverage posTiny [] ≤ 1 / 1000000 ∧
    processPosition cfg0 gwOk [] CoverageSummary.empty posTiny =
      ({ CoverageSummary.empty with TotalChecked := 1, FullyCovered := 1 }, []) := by
  have hval : analyzeCoverage posTiny [] = 1 / 2000000 := by
    norm_num [analyzeCoverage, coverageStats, posTiny]
  refine ⟨by rw [hval]; norm_num, by rw [hval]; norm_num, ?_⟩
  exact (processPosition_full_coverage_tolerance cfg0 gwOk [] CoverageSummary.empty posTiny).1
    (by rw [hval]; norm_num)

/-- C2: GetLatestPositions applies no staleness filtering — on a table
whose single snapshot is 1020 seconds old against a 600 second
threshold it still returns the snapshot positions, where the staleness
contract modelled from the spec returns the empty list. -/
theorem getLatestPositions_ignores_staleness :
    GetLatestPositions [staleRow] = [rowToPosition staleRow] ∧
    (1020 : Int) - staleRow.Timestamp > 600 ∧
    getLatestPositionsSpec 1020 600 [staleRow] = [] := by
  refine ⟨rfl, by decide, rfl⟩

end TenyoJubaku
